import Mathlib

/-!
Shallow embedding of the Plant-Care-Assistant orchestration core.

Embedded sources:
- src/agents/orchestration_agent.py — the dynamic planner: intent analysis,
  per-intent execution plans, condition checking, plan filtering, plan
  execution (sequential segment then parallel groups), and completeness
  assessment;
- src/chat_workflow.py — the fixed LangGraph pipeline: knowledge search with
  keyword fallback queries, the weather node, response generation with its
  failure handling, and the feedback-driven knowledge update;
- src/utils/vector_db.py — the similarity-search wrapper over the vector
  store.

Modelling conventions: Python dictionaries are association lists, JSON/LLM
payloads are the `Json` inductive, Python truthiness is made explicit by
`truthy`-style functions, machine floats on the 0..1 confidence scale are
rationals, and each awaited capability call is an explicit argument (an
oracle function or an `Except` outcome), with a raised exception modelled as
the `Except.error` branch the surrounding `try` catches.
-/

namespace PlantCare

/-- A Python/JSON value, used for LLM classifier payloads and for the `data`
payloads of agent results. -/
inductive Json where
  | null : Json
  | bool (b : Bool) : Json
  | num (q : ℚ) : Json
  | str (s : String) : Json
  | arr (elems : List Json) : Json
  | obj (fields : List (String × Json)) : Json

/-- Python truthiness of a JSON value (`bool(v)`). -/
def Json.truthy : Json → Bool
  | .null => false
  | .bool b => b
  | .num q => q != 0
  | .str s => s != ""
  | .arr elems => !elems.isEmpty
  | .obj fields => !fields.isEmpty

/-- Whether a JSON value is a number (a Python float/int). -/
def Json.isNum : Json → Bool
  | .num _ => true
  | _ => false

/-- Whether a JSON value is an object (a Python dict). -/
def Json.isObj : Json → Bool
  | .obj _ => true
  | _ => false

/-- Python `str.lower()`, per-character lowering; the strings compared in the
embedded code are ASCII identifiers and keywords. -/
def pyLower (s : String) : String := ⟨s.data.map Char.toLower⟩

/-- Python slicing `s[:n]`: the first n characters. -/
def pyTake (s : String) (n : Nat) : String := ⟨s.data.take n⟩

/-- Python substring membership `sub in s`. -/
def strContains (s sub : String) : Bool :=
  (List.range (s.data.length + 1)).any fun i => sub.data.isPrefixOf (s.data.drop i)

/-- The UserIntent enum (orchestration_agent.py lines 13-22). -/
inductive UserIntent where
  | plant_identification
  | disease_diagnosis
  | care_advice
  | watering_schedule
  | general_info
  | troubleshooting
  | seasonal_care
  | unknown
deriving DecidableEq

/-- All eight members of the UserIntent enum. -/
def intentLabels : List UserIntent :=
  [.plant_identification, .disease_diagnosis, .care_advice, .watering_schedule,
   .general_info, .troubleshooting, .seasonal_care, .unknown]

/-- The `UserIntent(intent_str)` enum constructor call on an already lowered
string: the eight accepted values; any other string raises `ValueError`,
which `analyze_intent` catches and maps to `UNKNOWN` (lines 190-194). -/
def UserIntent.ofString (s : String) : UserIntent :=
  if s = "plant_identification" then .plant_identification
  else if s = "disease_diagnosis" then .disease_diagnosis
  else if s = "care_advice" then .care_advice
  else if s = "watering_schedule" then .watering_schedule
  else if s = "general_info" then .general_info
  else if s = "troubleshooting" then .troubleshooting
  else if s = "seasonal_care" then .seasonal_care
  else .unknown

/-- First binding of a key in a JSON object (Python dict lookup; keys of a
Python dict are unique, so first-match is exact). -/
def jsonLookup (fields : List (String × Json)) (key : String) : Option Json :=
  fields.lookup key

/-- OrchestrationAgent.analyze_intent (orchestration_agent.py lines 134-200).
The LLM call, markdown-fence stripping and `json.loads` are abstracted into
the argument: `none` when the call or the parse raised (the outer `except`
returns `(UNKNOWN, 0.5)`), otherwise the parsed JSON value. The body mirrors
the source: `intent_data.get('intent', 'UNKNOWN')`,
`intent_data.get('confidence', 0.5)` (the confidence value is returned
verbatim, whatever JSON value it is), `.lower()` on the intent string (a
non-string intent value raises `AttributeError` inside the `try`, caught by
the outer handler, as is `.get` on a non-dict payload), and the
`UserIntent(...)` construction with its `ValueError` fallback to `UNKNOWN`. -/
def analyze_intent (payload : Option Json) : UserIntent × Json :=
  match payload with
  | none => (.unknown, .num 0.5)
  | some (.obj fields) =>
      let intentVal := (jsonLookup fields "intent").getD (.str "UNKNOWN")
      let confidence := (jsonLookup fields "confidence").getD (.num 0.5)
      match intentVal with
      | .str s => (UserIntent.ofString (pyLower s), confidence)
      | _ => (.unknown, .num 0.5)
  | some _ => (.unknown, .num 0.5)

/-- The AgentTask dataclass (orchestration_agent.py lines 32-40). -/
structure AgentTask where
  agent_name : String
  priority : Nat
  required : Bool
  conditions : List String
  parallel_group : Option String := none
  fallback_for : Option String := none
deriving DecidableEq

/-- The ExecutionStrategy enum (lines 24-30). -/
inductive ExecutionStrategy where
  | sequential
  | parallel
  | conditional
  | iterative
  | fallback_chain
deriving DecidableEq

/-- The ExecutionPlan dataclass (lines 42-49). -/
structure ExecutionPlan where
  intent : UserIntent
  tasks : List AgentTask
  strategy : ExecutionStrategy
  confidence_threshold : ℚ := 0.7
  max_iterations : Nat := 3

/-- The GENERAL_INFO template plan (lines 124-131). -/
def generalInfoPlan : ExecutionPlan :=
  { intent := .general_info
    strategy := .parallel
    tasks :=
      [{ agent_name := "knowledge_augmenter", priority := 1, required := true,
         conditions := [], parallel_group := some "search" },
       { agent_name := "care_advisor", priority := 2, required := true,
         conditions := ["has_search_results"] }] }

/-- The template plans keyed by intent, `_define_execution_plans` (lines
78-132); intents missing from the dict map to `none`. -/
def execution_plans : UserIntent → Option ExecutionPlan
  | .plant_identification => some
      { intent := .plant_identification
        strategy := .fallback_chain
        tasks :=
          [{ agent_name := "plant_identifier", priority := 1, required := true,
             conditions := ["has_image"] },
           { agent_name := "knowledge_augmenter", priority := 2, required := false,
             conditions := ["no_plant_identified"],
             fallback_for := some "plant_identifier" },
           { agent_name := "care_advisor", priority := 3, required := false,
             conditions := ["plant_identified"] }] }
  | .disease_diagnosis => some
      { intent := .disease_diagnosis
        strategy := .sequential
        tasks :=
          [{ agent_name := "plant_identifier", priority := 1, required := false,
             conditions := ["has_image"] },
           { agent_name := "disease_detector", priority := 2, required := true,
             conditions := [] },
           { agent_name := "knowledge_augmenter", priority := 3, required := true,
             conditions := [], parallel_group := some "search" },
           { agent_name := "care_advisor", priority := 4, required := true,
             conditions := ["has_disease_info"] }] }
  | .care_advice => some
      { intent := .care_advice
        strategy := .parallel
        tasks :=
          [{ agent_name := "plant_identifier", priority := 1, required := false,
             conditions := ["has_image"] },
           { agent_name := "knowledge_augmenter", priority := 2, required := true,
             conditions := [], parallel_group := some "search" },
           { agent_name := "weather_advisor", priority := 2, required := false,
             conditions := ["has_location"], parallel_group := some "search" },
           { agent_name := "care_advisor", priority := 3, required := true,
             conditions := ["has_search_results"] }] }
  | .watering_schedule => some
      { intent := .watering_schedule
        strategy := .conditional
        tasks :=
          [{ agent_name := "plant_identifier", priority := 1, required := false,
             conditions := ["has_image"] },
           { agent_name := "weather_advisor", priority := 2, required := true,
             conditions := ["has_location"] },
           { agent_name := "knowledge_augmenter", priority := 2, required := true,
             conditions := [], parallel_group := some "search" },
           { agent_name := "care_advisor", priority := 3, required := true,
             conditions := ["has_weather_and_search"] }] }
  | .general_info => some generalInfoPlan
  | _ => none

/-- The template plan lookup in `create_execution_plan`:
`self.execution_plans.get(intent, self.execution_plans[UserIntent.GENERAL_INFO])`
(line 223). -/
def basePlanFor (intent : UserIntent) : ExecutionPlan :=
  (execution_plans intent).getD generalInfoPlan

/-- Truthiness snapshot of the context keys inspected by `_check_conditions`,
`_update_context_with_result` and `assess_completeness`. The source context
is an open dict; keys the turn has not set are absent, hence falsy. -/
structure PlanContext where
  image_base64 : Bool := false
  location : Bool := false
  identified_plant : Bool := false
  disease_info : Bool := false
  knowledge_results : Bool := false
  web_search_results : Bool := false
  weather_data : Bool := false
  final_response : Bool := false
  health_issues : Bool := false
deriving DecidableEq

/-- OrchestrationAgent._check_conditions (lines 202-219): every named
condition must hold; names outside the closed predicate set pass. -/
def check_conditions (conditions : List String) (context : PlanContext) : Bool :=
  conditions.all fun condition =>
    if condition = "has_image" then context.image_base64
    else if condition = "has_location" then context.location
    else if condition = "plant_identified" then context.identified_plant
    else if condition = "no_plant_identified" then !context.identified_plant
    else if condition = "has_disease_info" then context.disease_info
    else if condition = "has_search_results" then
      context.knowledge_results || context.web_search_results
    else if condition = "has_weather_and_search" then
      context.weather_data &&
        (context.knowledge_results || context.web_search_results)
    else true

/-- OrchestrationAgent.create_execution_plan (lines 221-239): keep a template
task iff its capability is not in the instance's failed set and its
conditions are empty or hold; every other branch of the source loop ends
without appending the task. -/
def create_execution_plan (intent : UserIntent) (context : PlanContext)
    (failed_agents : List String) : List AgentTask :=
  (basePlanFor intent).tasks.filter fun task =>
    !failed_agents.contains task.agent_name &&
      (task.conditions.isEmpty || check_conditions task.conditions context)

/-- The uniform agent result dict: `success`, and the optional keys the
orchestrators read. `data` is the dict payload (`result.get('data', {})`
defaults an absent key to the empty dict, which this default mirrors);
`error` is the rendered error value read by `result.get('error', ...)`;
`confidence` backs `result.get('confidence', 0.8)`. -/
structure AgentResult where
  success : Bool
  data : List (String × Json) := []
  error : Option String := none
  confidence : Option ℚ := none

/-- The orchestrator instance's mutable `self.context` (orchestration_agent.py
lines 67-73): the per-instance confidence-score dict and failed-agent set.
It is created in `__init__` and is not re-initialised by `execute`;
`conversation_history` and `gathered_info` are carried in the source but
never read by the logic embedded here. -/
structure OrchContext where
  confidence_scores : List (String × ℚ) := []
  failed_agents : List String := []

/-- Python `set.add`. -/
def setInsert (s : List String) (x : String) : List String :=
  if s.contains x then s else x :: s

/-- Python dict assignment `d[k] = v`: overwrite in place, or append a new
key (insertion order preserved). -/
def dictUpsert (d : List (String × ℚ)) (k : String) (v : ℚ) :
    List (String × ℚ) :=
  if d.any (fun p => p.1 == k) then
    d.map fun p => if p.1 == k then (k, v) else p
  else d ++ [(k, v)]

/-- The keys of `self.agents` (lines 59-65). -/
def agentNames : List String :=
  ["plant_identifier", "care_advisor", "weather_advisor",
   "knowledge_augmenter", "disease_detector"]

/-- OrchestrationAgent.execute_agent (lines 241-284), abstracted over the
awaited capability call by the oracle `exec`. An unknown agent name returns
a failure dict without touching the failed set; a failure result (the
source's `except` branch also produces a failure dict and the same failed-set
update, so both are the oracle's `success := false` case) adds the capability
to the instance's failed set; a success records
`result.get('confidence', 0.8)` in the confidence-score dict. The vector-DB
pre-search that augments the knowledge_augmenter's input (lines 249-271) only
changes the capability's input and is embedded separately as
`planner_knowledge_results`. -/
def execute_agent (exec : String → AgentResult) (agent_name : String)
    (orch : OrchContext) : AgentResult × OrchContext :=
  if !agentNames.contains agent_name then
    ({ success := false, error := some ("Agent " ++ agent_name ++ " not found") },
     orch)
  else if (exec agent_name).success then
    (exec agent_name,
     { orch with
         confidence_scores :=
           dictUpsert orch.confidence_scores agent_name
             ((exec agent_name).confidence.getD 0.8) })
  else
    (exec agent_name,
     { orch with failed_agents := setInsert orch.failed_agents agent_name })

/-- Truthiness of `data.get('care_advice', data.get('advice', str(data)))`,
the value `_update_context_with_result` stores as the final response (line
390); `str(data)` is a non-empty string, hence truthy. -/
def adviceValueTruthy (data : List (String × Json)) : Bool :=
  match jsonLookup data "care_advice" with
  | some v => v.truthy
  | none =>
    match jsonLookup data "advice" with
    | some v => v.truthy
    | none => true

/-- OrchestrationAgent._update_context_with_result (lines 373-390), recorded
at the truthiness granularity the downstream condition checks observe. -/
def update_context_with_result (agent_name : String) (result : AgentResult)
    (context : PlanContext) : PlanContext :=
  if !result.success then context
  else
    let data := result.data
    if agent_name = "plant_identifier" then
      { context with identified_plant := !data.isEmpty }
    else if agent_name = "weather_advisor" then
      { context with weather_data := !data.isEmpty }
    else if agent_name = "knowledge_augmenter" then
      { context with
          web_search_results := ((jsonLookup data "sources").getD (.arr [])).truthy }
    else if agent_name = "disease_detector" then
      { context with
          disease_info := !data.isEmpty,
          health_issues := ((jsonLookup data "health_issues").getD (.arr [])).truthy }
    else if agent_name = "care_advisor" then
      { context with final_response := adviceValueTruthy data }
    else context

/-- Stable insertion of a task into a priority-sorted list: the task goes
before the first element of greater-or-equal priority that was later in the
original order. -/
def insertByPriority (t : AgentTask) : List AgentTask → List AgentTask
  | [] => [t]
  | u :: us =>
    if u.priority < t.priority then u :: insertByPriority t us
    else t :: u :: us

/-- Python `sorted(tasks, key=lambda t: t.priority)` (line 294): a stable
ascending sort by priority. -/
def sortByPriority (tasks : List AgentTask) : List AgentTask :=
  tasks.foldr insertByPriority []

/-- The parallel-group labels in first-occurrence order (Python dict
insertion order in the grouping loop of lines 290-300). -/
def groupLabels (tasks : List AgentTask) : List String :=
  tasks.foldl
    (fun acc t =>
      match t.parallel_group with
      | some g => if acc.contains g then acc else acc ++ [g]
      | none => acc)
    []

/-- The sequential-task loop of execute_plan (lines 302-311): each task whose
conditions hold in the current context runs, its result is recorded, the
failed set / confidence dict are updated inside `execute_agent`, and on
success the context is updated before the next task starts. -/
def runSequential (exec : String → AgentResult) :
    List AgentTask → PlanContext → OrchContext → List (String × AgentResult) →
    PlanContext × OrchContext × List (String × AgentResult)
  | [], context, orch, results => (context, orch, results)
  | task :: rest, context, orch, results =>
    if check_conditions task.conditions context then
      let step := execute_agent exec task.agent_name orch
      let context1 :=
        if step.1.success then
          update_context_with_result task.agent_name step.1 context
        else context
      runSequential exec rest context1 step.2 (results ++ [(task.agent_name, step.1)])
    else
      runSequential exec rest context orch results

/-- One parallel group of execute_plan (lines 314-330): the group's
executable tasks are selected against the pre-group context, all of them run
(fan-out; per-task failed-set/confidence updates happen during the gather,
and one task's failure does not cancel its siblings), then fan-in merges
each success into the context in task order. -/
def runGroup (exec : String → AgentResult) (tasks : List AgentTask)
    (context : PlanContext) (orch : OrchContext) :
    PlanContext × OrchContext × List (String × AgentResult) :=
  let executable := tasks.filter fun t => check_conditions t.conditions context
  let fanned :=
    executable.foldl
      (fun (acc : OrchContext × List (String × AgentResult)) t =>
        let step := execute_agent exec t.agent_name acc.1
        (step.2, acc.2 ++ [(t.agent_name, step.1)]))
      (orch, [])
  let context1 :=
    fanned.2.foldl
      (fun c p =>
        if p.2.success then update_context_with_result p.1 p.2 c else c)
      context
  (context1, fanned.1, fanned.2)

/-- OrchestrationAgent.execute_plan (lines 286-332): sort by priority, run
the ungrouped tasks sequentially, then each parallel group in label order. -/
def execute_plan (exec : String → AgentResult) (tasks : List AgentTask)
    (context : PlanContext) (orch : OrchContext) :
    PlanContext × OrchContext × List (String × AgentResult) :=
  let sorted := sortByPriority tasks
  let seqTasks := sorted.filter fun t => t.parallel_group.isNone
  let afterSeq := runSequential exec seqTasks context orch []
  (groupLabels sorted).foldl
    (fun acc g =>
      let grp := runGroup exec (sorted.filter fun t => t.parallel_group == some g)
        acc.1 acc.2.1
      (grp.1, grp.2.1, acc.2.2 ++ grp.2.2))
    afterSeq

/-- The per-intent required-information table of assess_completeness (lines
394-402); intents missing from it get the `['final_response']` default. -/
def required_info (intent : UserIntent) : List String :=
  if intent = .plant_identification then ["identified_plant"]
  else if intent = .disease_diagnosis then ["disease_info", "final_response"]
  else if intent = .care_advice then ["final_response"]
  else if intent = .watering_schedule then ["final_response"]
  else if intent = .general_info then ["final_response"]
  else ["final_response"]

/-- Truthy lookup `context.get(key)` for the keys the assessment can name. -/
def contextGet (context : PlanContext) (key : String) : Bool :=
  if key = "image_base64" then context.image_base64
  else if key = "location" then context.location
  else if key = "identified_plant" then context.identified_plant
  else if key = "disease_info" then context.disease_info
  else if key = "knowledge_results" then context.knowledge_results
  else if key = "web_search_results" then context.web_search_results
  else if key = "weather_data" then context.weather_data
  else if key = "final_response" then context.final_response
  else if key = "health_issues" then context.health_issues
  else false

/-- OrchestrationAgent.assess_completeness (lines 392-411): the raw fraction
of required keys present, the mean recorded confidence (0.5 when none), the
0.7/0.3 blend, and the `completeness >= 0.8` verdict taken on the raw
fraction. -/
def assess_completeness (intent : UserIntent) (context : PlanContext)
    (confidence_scores : List (String × ℚ)) : Bool × ℚ :=
  let required := required_info intent
  let available : Nat := required.countP fun req => contextGet context req
  let completeness : ℚ :=
    if required.isEmpty then 1 else (available : ℚ) / (required.length : ℚ)
  let avg_confidence : ℚ :=
    if confidence_scores.isEmpty then 0.5
    else (confidence_scores.map (fun p => p.2)).sum / (confidence_scores.length : ℚ)
  let overall_score := completeness * 0.7 + avg_confidence * 0.3
  (decide (completeness ≥ 0.8), overall_score)

/-- The caller-supplied fields of one turn's input (execute, lines 416-427);
only the presence bits feed the fresh local context dict. -/
structure TurnInput where
  user_query : String := ""
  has_image : Bool := false
  has_location : Bool := false

/-- The fresh per-turn context dict built at the top of execute (lines
421-427): only the input keys are set. -/
def initialContext (inp : TurnInput) : PlanContext :=
  { image_base64 := inp.has_image, location := inp.has_location }

/-- What one turn returns to its caller, of the fields the claims observe. -/
structure TurnOutput where
  intent : UserIntent
  agents_used : List String
  is_complete : Bool
  completeness_score : ℚ
  context : PlanContext

/-- One call of OrchestrationAgent.execute (lines 413-469): analyze intent
(the classifier payload is the already-parsed argument), build the plan
against the fresh context and the instance's persisting failed set, execute
it, and assess completeness. The instance's `self.context` is threaded in
and out; `execute` never resets it. -/
def runTurn (exec : String → AgentResult) (payload : Option Json)
    (inp : TurnInput) (orch : OrchContext) : OrchContext × TurnOutput :=
  let intent := (analyze_intent payload).1
  let context := initialContext inp
  let tasks := create_execution_plan intent context orch.failed_agents
  let executed := execute_plan exec tasks context orch
  let assessed := assess_completeness intent executed.1 executed.2.1.confidence_scores
  (executed.2.1,
   { intent := intent
     agents_used := executed.2.2.map fun p => p.1
     is_complete := assessed.1
     completeness_score := assessed.2
     context := executed.1 })

/-- One document of the Semantic Store. -/
structure Doc where
  content : String
  metadata : List (String × Json) := []

/-- VectorDBManager.similarity_search with the default (absent) score
threshold (utils/vector_db.py lines 83-95): the store is modelled by its
deterministic similarity ranking, a full ranked result list per query, of
which the first k are returned. -/
def similarity_search (ranking : String → List Doc) (query : String)
    (k : Nat) : List Doc :=
  (ranking query).take k

/-- One converted knowledge result `{content, metadata, score}`
(chat_workflow.py lines 232-236, orchestration_agent.py lines 261-265). -/
structure KnowledgeSnippet where
  content : String
  metadata : List (String × Json) := []
  score : ℚ

/-- Python dict assignment on a JSON-valued dict. -/
def setKey (d : List (String × Json)) (k : String) (v : Json) :
    List (String × Json) :=
  if d.any (fun p => p.1 == k) then
    d.map fun p => if p.1 == k then (k, v) else p
  else d ++ [(k, v)]

/-- The Document-to-dict conversion of the fixed pipeline's knowledge node
(chat_workflow.py lines 214-236): copy the metadata, tag it with the vector
source markers, and attach the constant default score 0.8. -/
def toSnippet (doc : Doc) : KnowledgeSnippet :=
  { content := doc.content
    metadata :=
      setKey (setKey doc.metadata "source_type" (.str "vector_database"))
        "retrieval_method" (.str "similarity_search")
    score := 0.8 }

/-- The vector-DB pre-search that execute_agent performs for the
knowledge_augmenter (orchestration_agent.py lines 249-271): a single k=5
similarity search on `f"{plant_name} {query}".strip()`, each document
converted with the constant score 0.8 and its metadata kept as is. -/
def planner_knowledge_results (ranking : String → List Doc)
    (plant_name query : String) : List KnowledgeSnippet :=
  let search_query := (plant_name ++ " " ++ query).trim
  (similarity_search ranking search_query 5).map fun doc =>
    { content := doc.content, metadata := doc.metadata, score := 0.8 }

/-- The identified-plant dict, with `plant_name` optional the way a dict key
is; a falsy (absent or empty) identification dict is `none`. -/
structure PlantInfo where
  plant_name : Option String := none

/-- The `state.identified_plant.get("plant_name", default) if
state.identified_plant else default` pattern the workflow nodes share. -/
def plantNameOf (plant : Option PlantInfo) (default : String) : String :=
  match plant with
  | some p => p.plant_name.getD default
  | none => default

/-- The parsed `data` payload of a successful
APIHelper.extract_search_keywords call; option fields mirror the node's
`dict.get` defaults (chat_workflow.py lines 149-171). -/
structure KeywordData where
  optimized_query : Option String := none
  primary_keywords : List String := []
  care_categories : List String := []
  detected_plant_name : Option String := none

/-- The ChatState fields read and written by the embedded nodes
(chat_workflow.py lines 18-48). `sources_summary` stands for
`sources_used["summary"]`, the only part of the provenance object the
knowledge-update node serialises besides the details dump. -/
structure ChatState where
  user_query : String := ""
  image_base64 : Option String := none
  image_description : String := ""
  location : String := ""
  identified_plant : Option PlantInfo := none
  knowledge_results : List KnowledgeSnippet := []
  weather_data : Option (List (String × Json)) := none
  final_response : String := ""
  sources_summary : List String := []
  user_feedback_score : Option Nat := none
  feedback_comments : String := ""
  knowledge_updated : Bool := false
  error_message : String := ""
  needs_web_search : Bool := false

/-- Everything the knowledge-search node computes
(PlantCareWorkflow._search_knowledge_node, chat_workflow.py lines 138-247),
kept apart so the theorems can speak about the intermediate values: the
effective plant name and optimized query (after the detected-plant-name
substitution of lines 155-161), the primary k=5 search, the additional
single-keyword queries and their k=2 results, and the final result list. -/
structure KnowledgeSearch where
  plant_name : String
  optimized_query : String
  extraction_success : Bool
  primary : List Doc
  additional_queries : List String
  additional_results : List Doc
  results : List Doc
  knowledge_results : List KnowledgeSnippet
  needs_web_search : Bool

/-- The deduplicate-and-cap loop of lines 201-211: walk the combined list,
keep the first document for each content, stop once 5 results are kept. -/
def dedupCap : List Doc → List String → List Doc → List Doc
  | [], _, acc => acc.reverse
  | d :: rest, seen, acc =>
    if seen.contains d.content then dedupCap rest seen acc
    else if 5 ≤ acc.length + 1 then (d :: acc).reverse
    else dedupCap rest (d.content :: seen) (d :: acc)

/-- The detected-plant-name substitution of the knowledge node (lines
155-161): when identification produced "Unknown" and the keyword extraction
detected a (truthy) plant name in the query text, that name replaces the
unknown one. -/
def knowledgePlantName (st : ChatState) (kd : KeywordData) : String :=
  let plant_name0 := plantNameOf st.identified_plant "Unknown"
  if plant_name0 = "Unknown" && kd.detected_plant_name.getD "" != "" then
    kd.detected_plant_name.getD ""
  else plant_name0

/-- The optimized query after a successful extraction:
`keywords_data.get("optimized_query", f"{plant_name} {state.user_query}")`,
re-evaluated after the plant-name substitution (lines 151 and 160), so the
dict value when present and otherwise the effective plant name followed by
the user query. -/
def knowledgeQuery (st : ChatState) (kd : KeywordData) : String :=
  kd.optimized_query.getD (knowledgePlantName st kd ++ " " ++ st.user_query)

/-- PlantCareWorkflow._search_knowledge_node (lines 138-247). The awaited
keyword extraction is the `keyword_result` argument: `none` for a failed
extraction (the fallback query construction of lines 179-187), `some` for a
successful one. The primary search uses k=5; when it returns fewer than 3
results and extraction succeeded, up to 2 additional k=2 single-keyword
searches run (one per top-2 keyword not already contained, lowercased, in
the optimized query), and the combined list is deduplicated by content and
capped at 5. The node always sets the web-search flag (line 241). -/
def search_knowledge (ranking : String → List Doc)
    (keyword_result : Option KeywordData) (st : ChatState) : KnowledgeSearch :=
  let plant_name0 := plantNameOf st.identified_plant "Unknown"
  match keyword_result with
  | some kd =>
    let plant_name := knowledgePlantName st kd
    let optimized_query := knowledgeQuery st kd
    let primary := similarity_search ranking optimized_query 5
    let eligible :=
      (kd.primary_keywords.take 2).filter fun keyword =>
        !strContains (pyLower optimized_query) (pyLower keyword)
    let additional_queries :=
      if primary.length < 3 then
        eligible.map fun keyword => plant_name ++ " " ++ keyword
      else []
    let additional_results :=
      if primary.length < 3 then
        (eligible.map fun keyword =>
          similarity_search ranking (plant_name ++ " " ++ keyword) 2).flatten
      else []
    let results :=
      if primary.length < 3 then dedupCap (primary ++ additional_results) [] []
      else primary
    { plant_name := plant_name
      optimized_query := optimized_query
      extraction_success := true
      primary := primary
      additional_queries := additional_queries
      additional_results := additional_results
      results := results
      knowledge_results := results.map toSnippet
      needs_web_search := true }
  | none =>
    let optimized_query := plant_name0 ++ " " ++ st.user_query
    let primary := similarity_search ranking optimized_query 5
    { plant_name := plant_name0
      optimized_query := optimized_query
      extraction_success := false
      primary := primary
      additional_queries := []
      additional_results := []
      results := primary
      knowledge_results := primary.map toSnippet
      needs_web_search := true }

/-- PlantCareWorkflow._get_weather_node (chat_workflow.py lines 249-273).
The awaited weather_advisor call is the `outcome` argument; `Except.error`
is an exception the node's handler catches (line 269-271). An absent
location, a failure result and an exception all store a dict with an
`"error"` key instead of raising. -/
def get_weather_node (st : ChatState) (outcome : Except String AgentResult) :
    ChatState :=
  if st.location != "" then
    match outcome with
    | .error e =>
      { st with
          error_message := "Error getting weather data: " ++ e,
          weather_data := some [("error", .str e)] }
    | .ok result =>
      if result.success then { st with weather_data := some result.data }
      else { st with weather_data := some [("error", .str "Weather data unavailable")] }
  else { st with weather_data := some [("error", .str "Location not provided")] }

/-- Truthiness of the optional weather dict (`bool(state.weather_data)`). -/
def weatherTruthy (weather_data : Option (List (String × Json))) : Bool :=
  match weather_data with
  | some fields => !fields.isEmpty
  | none => false

/-- Key membership `"error" in state.weather_data`. -/
def weatherHasError (weather_data : Option (List (String × Json))) : Bool :=
  match weather_data with
  | some fields => fields.any fun p => p.1 == "error"
  | none => false

/-- The weather entry's provenance status in the response node
(chat_workflow.py line 446): `"completed" if state.weather_data and "error"
not in state.weather_data else "failed" if state.weather_data else
"skipped"`. -/
def weather_status (st : ChatState) : String :=
  if weatherTruthy st.weather_data && !weatherHasError st.weather_data then
    "completed"
  else if weatherTruthy st.weather_data then "failed"
  else "skipped"

/-- A plain rendering standing for Python `str(value)`; only its truthiness
and use as a final-response fallback are observed, and it is non-empty for
every value (`str` of a dict prints at least the braces). -/
def Json.render : Json → String
  | .null => "None"
  | .bool b => if b then "True" else "False"
  | .num q => toString q
  | .str s => s
  | .arr _ => "[...]"
  | .obj _ => "\x7b...\x7d"

/-- The final-response extraction of the success branch (lines 394-402):
`advice_data["care_advice"]`, else `advice_data["advice"]`, else
`str(advice_data)`. -/
def adviceText (data : List (String × Json)) : String :=
  match jsonLookup data "care_advice" with
  | some v => v.render
  | none =>
    match jsonLookup data "advice" with
    | some v => v.render
    | none => Json.render (.obj data)

/-- PlantCareWorkflow._generate_response_node at the granularity of its
outcome handling (chat_workflow.py lines 343-542). The awaited care_advisor
call (and the provenance construction that follows it inside the same `try`)
is the `outcome` argument; `Except.error` is an exception caught by lines
538-540. A failure result embeds `result.get('error', 'Unknown error')` in
the final response (line 536); an exception stores the error in the state's
error slot and the fixed apology as the final response. The success branch
stores the extracted advice text (its provenance object is embedded
separately, see `weather_status`). -/
def generate_response_node (st : ChatState)
    (outcome : Except String AgentResult) : ChatState :=
  match outcome with
  | .error e =>
    { st with
        error_message := "Error generating response: " ++ e,
        final_response := "Sorry, I encountered an error while generating the response." }
  | .ok result =>
    if result.success then { st with final_response := adviceText result.data }
    else
      { st with
          final_response :=
            "Error generating response: " ++ result.error.getD "Unknown error" }

/-- The condensed record persisted by the knowledge-update node
(chat_workflow.py lines 565-575); `sources_details`, a JSON dump of the
provenance details, is represented by the summary join it accompanies. -/
structure KnowledgeEntry where
  plant_name : String
  query : String
  response_preview : String
  sources_summary : String
  feedback_score : Nat
  feedback_comments : String
  source : String
  type : String
deriving DecidableEq

/-- PlantCareWorkflow._update_knowledge_node (chat_workflow.py lines
550-586): when the feedback score is truthy and at least 70, append exactly
one `(content, metadata)` pair to the Semantic Store — the query capped at
500 characters, the response preview at 200 characters plus an ellipsis —
and set the updated flag; otherwise write nothing. The returned list is the
sequence of `vector_db.add_documents` writes the node performs. -/
def update_knowledge_node (st : ChatState) :
    ChatState × List (String × KnowledgeEntry) :=
  match st.user_feedback_score with
  | some score =>
    if score ≠ 0 ∧ 70 ≤ score then
      let plant_name := plantNameOf st.identified_plant "Not identified"
      let entry : KnowledgeEntry :=
        { plant_name := plant_name
          query := pyTake st.user_query 500
          response_preview :=
            if 200 < st.final_response.length then
              pyTake st.final_response 200 ++ "..."
            else st.final_response
          sources_summary :=
            if st.sources_summary.isEmpty then "No sources"
            else String.intercalate ", " st.sources_summary
          feedback_score := score
          feedback_comments := pyTake st.feedback_comments 200
          source := "user_feedback"
          type := "validated_advice" }
      let content :=
        "Plant: " ++ plant_name ++ "\nQuery: " ++ st.user_query ++
          "\nAdvice: " ++ st.final_response
      ({ st with knowledge_updated := true }, [(content, entry)])
    else (st, [])
  | none => (st, [])

/-- PlantCareWorkflow._should_update_knowledge (lines 590-594). -/
def should_update_knowledge (st : ChatState) : String :=
  match st.user_feedback_score with
  | some score => if score ≠ 0 ∧ 70 ≤ score then "update" else "end"
  | none => "end"

/-- PlantCareWorkflow.update_feedback (lines 633-642), the dedicated
re-entry point that submits a score for a completed turn: record the score
and comments, and run the knowledge-update node when the score is at least
70. -/
def update_feedback (st : ChatState) (feedback_score : Nat)
    (comments : String) : ChatState × List (String × KnowledgeEntry) :=
  let st1 :=
    { st with
        user_feedback_score := some feedback_score,
        feedback_comments := comments }
  if 70 ≤ feedback_score then update_knowledge_node st1 else (st1, [])

/-! ### Claim C1: the feedback threshold -/

/-- C1: submitting a feedback score s for a completed turn writes to the
Semantic Store iff s is at least 70 — the conditional edge agrees — and at
70 or above the node performs exactly one write whose record carries the
plant name, the user query truncated to at most 500 characters, and the
response truncated to at most 203 characters (200 plus the ellipsis). -/
theorem feedback_threshold_write (st : ChatState) (s : Nat) (c : String) :
    ((update_feedback st s c).2 ≠ [] ↔ 70 ≤ s) ∧
    should_update_knowledge (update_feedback st s c).1 =
      (if 70 ≤ s then "update" else "end") ∧
    (70 ≤ s → ∃ w, (update_feedback st s c).2 = [w] ∧
      w.2.plant_name = plantNameOf st.identified_plant "Not identified" ∧
      w.2.query = pyTake st.user_query 500 ∧
      w.2.query.length ≤ 500 ∧
      w.2.response_preview.length ≤ 203 ∧
      w.2.feedback_score = s) := by
  have hq : (pyTake st.user_query 500).length ≤ 500 :=
    List.length_take_le ..
  by_cases h : 70 ≤ s
  · have hcond : s ≠ 0 ∧ 70 ≤ s := ⟨by omega, h⟩
    refine ⟨?_, ?_, ?_⟩
    · simp [update_feedback, update_knowledge_node, h, hcond]
    · simp [update_feedback, update_knowledge_node, should_update_knowledge, h, hcond]
    · intro _
      have hw : (update_feedback st s c).2 =
          [("Plant: " ++ plantNameOf st.identified_plant "Not identified" ++
              "\nQuery: " ++ st.user_query ++ "\nAdvice: " ++ st.final_response,
            { plant_name := plantNameOf st.identified_plant "Not identified"
              query := pyTake st.user_query 500
              response_preview :=
                if 200 < st.final_response.length then
                  pyTake st.final_response 200 ++ "..."
                else st.final_response
              sources_summary :=
                if st.sources_summary.isEmpty then "No sources"
                else String.intercalate ", " st.sources_summary
              feedback_score := s
              feedback_comments := pyTake c 200
              source := "user_feedback"
              type := "validated_advice" })] := by
        simp only [update_feedback, if_pos h, update_knowledge_node]
        rw [if_pos hcond]
      rw [hw]
      refine ⟨_, rfl, rfl, rfl, hq, ?_, rfl⟩
      by_cases hlen : 200 < st.final_response.length
      · have htk : (pyTake st.final_response 200).length ≤ 200 :=
          List.length_take_le ..
        simp only [hlen, if_true]
        rw [String.length_append]
        have he : "...".length = 3 := rfl
        omega
      · simp only [hlen, if_false]
        omega
  · refine ⟨?_, ?_, fun hs => absurd hs h⟩
    · simp [update_feedback, h]
    · have : ¬ (s ≠ 0 ∧ 70 ≤ s) := fun hc => h hc.2
      simp [update_feedback, should_update_knowledge, h, this]

/-- An example completed-turn state for evaluating the feedback path. -/
def feedbackState : ChatState :=
  { user_query := "How often should I water my monstera?"
    identified_plant := some { plant_name := some "Monstera deliciosa" }
    final_response := "Water when the top few centimeters of soil are dry." }

/-- C1 witness: at score 70 on a concrete completed turn, a write happens. -/
theorem feedback_threshold_write_witness :
    (update_feedback feedbackState 70 "helpful").2 ≠ [] :=
  (feedback_threshold_write feedbackState 70 "helpful").1.mpr (by norm_num)

/-! ### Claim C3: the weather error sentinel -/

/-- A failed weather call: the awaited capability raised, or returned a
non-success result. -/
def weatherCallFailed : Except String AgentResult → Prop
  | .error _ => True
  | .ok r => r.success = false

/-- C3: whenever the location is absent or the GetWeather capability fails,
the weather field of the turn state is the error-sentinel dict (it carries
an "error" key, no exception escapes the node), and the provenance status
computed for weather is "failed" — one of the two allowed markers, and in
particular never "completed". -/
theorem weather_error_sentinel (st : ChatState)
    (outcome : Except String AgentResult)
    (h : st.location = "" ∨ weatherCallFailed outcome) :
    weatherHasError (get_weather_node st outcome).weather_data = true ∧
    weather_status (get_weather_node st outcome) = "failed" ∧
    weather_status (get_weather_node st outcome) ≠ "completed" := by
  by_cases hloc : st.location = ""
  · simp [get_weather_node, hloc, weather_status, weatherTruthy, weatherHasError]
  · have hfail : weatherCallFailed outcome := h.resolve_left hloc
    match outcome with
    | .error e =>
      simp [get_weather_node, hloc, weather_status, weatherTruthy, weatherHasError]
    | .ok r =>
      have : r.success = false := hfail
      simp [get_weather_node, hloc, this, weather_status, weatherTruthy, weatherHasError]

/-- C3 witness: with no location the sentinel is stored and the provenance
status is "failed" even when the capability itself would have succeeded. -/
theorem weather_error_sentinel_witness :
    weather_status (get_weather_node {} (.ok { success := true })) = "failed" :=
  (weather_error_sentinel {} (.ok { success := true }) (Or.inl rfl)).2.1

/-! ### Claim C10: the constant 0.8 relevance score -/

/-- C10: every knowledge snippet produced from a Semantic Store similarity
search — by the fixed pipeline's knowledge node and by the planner's
vector-search wrapper alike — carries the constant relevance score 0.8,
independent of the query, the store contents and the ranking position. -/
theorem knowledge_score_constant (ranking : String → List Doc)
    (keyword_result : Option KeywordData) (st : ChatState)
    (plant_name query : String) :
    ((search_knowledge ranking keyword_result st).knowledge_results.all
      fun snip => snip.score == (0.8 : ℚ)) = true ∧
    ((planner_knowledge_results ranking plant_name query).all
      fun snip => snip.score == (0.8 : ℚ)) = true := by
  constructor
  · rw [List.all_eq_true]
    intro snip hsnip
    cases keyword_result with
    | none =>
      obtain ⟨d, -, rfl⟩ := List.mem_map.mp (by simpa [search_knowledge] using hsnip)
      simp [toSnippet]
    | some kd =>
      obtain ⟨d, -, rfl⟩ := List.mem_map.mp (by simpa [search_knowledge] using hsnip)
      simp [toSnippet]
  · rw [List.all_eq_true]
    intro snip hsnip
    obtain ⟨d, -, rfl⟩ :=
      List.mem_map.mp (by simpa [planner_knowledge_results] using hsnip)
    simp

/-! ### Claim C4: totality and defaults of intent analysis -/

/-- A parseable classifier payload whose confidence is a string rather than
a float. -/
def stringConfidencePayload : Json :=
  .obj [("intent", .str "care_advice"), ("confidence", .str "high")]

/-- C4 counterexample: on the parseable payload whose confidence is the
string "high", analyze_intent neither returns a float confidence nor falls
back to the default (unknown, 0.5): it returns care_advice with the string
confidence passed through verbatim. -/
theorem analyze_intent_string_confidence :
    (analyze_intent (some stringConfidencePayload)).1 = UserIntent.care_advice ∧
    Json.isNum (analyze_intent (some stringConfidencePayload)).2 = false ∧
    analyze_intent (some stringConfidencePayload) ≠ (.unknown, .num 0.5) := by
  have h : analyze_intent (some stringConfidencePayload) =
      (UserIntent.care_advice, .str "high") := rfl
  refine ⟨by rw [h], by rw [h]; rfl, ?_⟩
  rw [h]
  intro hEq
  injection hEq with h1 _
  exact UserIntent.noConfusion h1

/-- C4 amended: intent analysis is total and returns one of the eight
labels, with (unknown, 0.5) exactly on an unparseable payload or a payload
that is not a JSON object; the confidence, however, is the classifier's
value verbatim (0.5 only when the key is absent), so it need not be a
float; and the unknown intent maps to the general_info plan template. -/
theorem analyze_intent_total_default (payload : Option Json) :
    intentLabels.contains (analyze_intent payload).1 = true ∧
    (payload = none → analyze_intent payload = (.unknown, .num 0.5)) ∧
    (∀ j, payload = some j → j.isObj = false →
      analyze_intent payload = (.unknown, .num 0.5)) ∧
    basePlanFor .unknown = basePlanFor .general_info := by
  refine ⟨?_, ?_, ?_, rfl⟩
  · cases h : (analyze_intent payload).1 <;> decide
  · rintro rfl; rfl
  · rintro j rfl hobj
    cases j <;> simp_all [analyze_intent, Json.isObj]

/-- C4 witness: the unparseable-payload default, evaluated. -/
theorem analyze_intent_total_default_witness :
    analyze_intent none = (.unknown, .num 0.5) :=
  (analyze_intent_total_default none).2.1 rfl

/-! ### Claims C5 and C6: the completeness assessment -/

/-- No intent has an empty required-information list (the table's entries
are non-empty and the dict default is `['final_response']`). -/
lemma required_info_not_empty (intent : UserIntent) :
    (required_info intent).isEmpty = false := by
  cases intent <;> rfl

/-- The raw fraction of the intent's required keys present in the context —
the spec's "fraction of the intent's required state fields that are
present". -/
def requiredFraction (intent : UserIntent) (context : PlanContext) : ℚ :=
  (((required_info intent).countP fun req => contextGet context req : Nat) : ℚ) /
    ((required_info intent).length : ℚ)

/-- The mean recorded capability confidence, 0.5 when none exist — the
spec's "mean of all per-capability confidence scores, or 0.5 when none
exist". -/
def meanConfidence (confidence_scores : List (String × ℚ)) : ℚ :=
  if confidence_scores.isEmpty then 0.5
  else (confidence_scores.map fun p => p.2).sum / (confidence_scores.length : ℚ)

/-- A context in which only the final response is populated. -/
def finalOnlyContext : PlanContext := { final_response := true }

/-- C5 counterexample: for care_advice with its single required field
present and one recorded confidence of 0, the blended overall score is
0.7 < 0.8, yet assess_completeness reports the turn complete — the source
applies the 0.8 threshold to the raw fraction, not to the blended score the
claim describes. -/
theorem assess_complete_despite_low_blend :
    (assess_completeness .care_advice finalOnlyContext [("care_advisor", 0)]).1 = true ∧
    (assess_completeness .care_advice finalOnlyContext [("care_advisor", 0)]).2 < 0.8 := by
  have hreq : required_info .care_advice = ["final_response"] := rfl
  have hget : (fun req => contextGet finalOnlyContext req) "final_response" = true := rfl
  constructor
  · simp only [assess_completeness, hreq, List.countP_cons, List.countP_nil, hget,
      decide_eq_true_eq]
    norm_num
  · simp only [assess_completeness, hreq, List.countP_cons, List.countP_nil, hget]
    norm_num

/-- C5 amended: the overall score is exactly fraction * 0.7 + mean * 0.3 as
the claim states, but the turn is reported complete exactly when the RAW
required-field fraction is at least 0.8; the blended overall score is
surfaced, never thresholded. -/
theorem assess_completeness_formula (intent : UserIntent)
    (context : PlanContext) (confidence_scores : List (String × ℚ)) :
    (assess_completeness intent context confidence_scores).2 =
      requiredFraction intent context * 0.7 +
        meanConfidence confidence_scores * 0.3 ∧
    ((assess_completeness intent context confidence_scores).1 = true ↔
      0.8 ≤ requiredFraction intent context) := by
  have hne := required_info_not_empty intent
  constructor
  · simp only [assess_completeness, hne, Bool.false_eq_true, if_false,
      requiredFraction, meanConfidence]
  · simp only [assess_completeness, hne, Bool.false_eq_true, if_false,
      requiredFraction, decide_eq_true_eq, ge_iff_le]

/-- C6: for a fixed confidence-score dict and a fixed intent, the blended
completeness score is monotone: a context in which every populated key of
the first stays populated (plus possibly more) never scores lower. -/
theorem assess_completeness_monotone (intent : UserIntent)
    (confidence_scores : List (String × ℚ)) (c c' : PlanContext)
    (h : ∀ key, contextGet c key = true → contextGet c' key = true) :
    (assess_completeness intent c confidence_scores).2 ≤
      (assess_completeness intent c' confidence_scores).2 := by
  have hne := required_info_not_empty intent
  have hcount : ((required_info intent).countP fun req => contextGet c req) ≤
      ((required_info intent).countP fun req => contextGet c' req) :=
    List.countP_mono_left fun a _ => h a
  simp only [assess_completeness, hne, Bool.false_eq_true, if_false]
  have hfrac :
      (((required_info intent).countP fun req => contextGet c req : Nat) : ℚ) /
          ((required_info intent).length : ℚ) ≤
        (((required_info intent).countP fun req => contextGet c' req : Nat) : ℚ) /
          ((required_info intent).length : ℚ) := by
    gcongr
  have h07 : (0 : ℚ) ≤ 0.7 := by norm_num
  nlinarith [hfrac]

/-- In the empty context every key reads as absent. -/
lemma contextGet_bot (key : String) : contextGet ({} : PlanContext) key = false := by
  unfold contextGet
  split_ifs <;> rfl

/-- C6 witness: the monotonicity theorem applied to the empty context versus
the final-response-only context. -/
theorem assess_completeness_monotone_witness :
    (assess_completeness .care_advice {} []).2 ≤
      (assess_completeness .care_advice finalOnlyContext []).2 :=
  assess_completeness_monotone .care_advice [] {} finalOnlyContext
    (fun key hk => absurd (contextGet_bot key ▸ hk) (by decide))

/-! ### Claim C2: the knowledge-search merge -/

/-- The deduplicate-and-cap loop never keeps more than 5 documents. -/
lemma dedupCap_length_le (l : List Doc) :
    ∀ seen acc, acc.length < 5 → (dedupCap l seen acc).length ≤ 5 := by
  induction l with
  | nil =>
    intro seen acc h
    simpa [dedupCap] using h.le
  | cons d rest ih =>
    intro seen acc h
    simp only [dedupCap]
    split
    · exact ih seen acc h
    · split
      · simpa using by omega
      · exact ih _ _ (by rename_i hc _; simpa using by omega)

/-- The kept documents of the deduplicate-and-cap loop have pairwise
distinct contents, given that the accumulator does and is covered by the
seen set. -/
lemma dedupCap_nodup (l : List Doc) :
    ∀ seen acc, (acc.map fun d => d.content).Nodup →
      (∀ a ∈ acc, a.content ∈ seen) →
      ((dedupCap l seen acc).map fun d => d.content).Nodup := by
  induction l with
  | nil =>
    intro seen acc h1 _
    simpa [dedupCap] using h1
  | cons d rest ih =>
    intro seen acc h1 h2
    simp only [dedupCap]
    split
    · exact ih seen acc h1 h2
    · rename_i hseen
      have hd : d.content ∉ seen := by simpa using hseen
      have hnotin : d.content ∉ acc.map fun a => a.content := by
        intro hmem
        obtain ⟨a, ha, hae⟩ := List.mem_map.mp hmem
        exact hd (hae ▸ h2 a ha)
      have hcons : ((d :: acc).map fun a => a.content).Nodup := by
        simpa using List.Nodup.cons hnotin h1
      split
      · rw [List.map_reverse, List.nodup_reverse]
        exact hcons
      · exact ih _ _ hcons (by
          intro a ha
          rcases List.mem_cons.mp ha with rfl | ha
          · exact List.mem_cons_self ..
          · exact List.mem_cons_of_mem _ (h2 a ha))

/-- Every kept document of the deduplicate-and-cap loop comes from the
accumulator or the input. -/
lemma dedupCap_mem (l : List Doc) :
    ∀ seen acc x, x ∈ dedupCap l seen acc → x ∈ acc ∨ x ∈ l := by
  induction l with
  | nil =>
    intro seen acc x h
    exact Or.inl (by simpa [dedupCap] using h)
  | cons d rest ih =>
    intro seen acc x h
    simp only [dedupCap] at h
    split at h
    · rcases ih _ _ _ h with h1 | h1
      · exact Or.inl h1
      · exact Or.inr (List.mem_cons_of_mem _ h1)
    · split at h
      · rcases List.mem_reverse.mp h with h1
        rcases List.mem_cons.mp h1 with rfl | h1
        · exact Or.inr (List.mem_cons_self ..)
        · exact Or.inl h1
      · rcases ih _ _ _ h with h1 | h1
        · rcases List.mem_cons.mp h1 with rfl | h1
          · exact Or.inr (List.mem_cons_self ..)
          · exact Or.inl h1
        · exact Or.inr (List.mem_cons_of_mem _ h1)

/-- A store ranking on which the primary optimized query returns exactly two
documents and the single-keyword fallback query returns one more. -/
def rankingTwoPrimary : String → List Doc := fun q =>
  if q = "Rose care tips" then
    [{ content := "rose care doc" }, { content := "rose watering doc" }]
  else if q = "Rose soil" then [{ content := "rose soil doc" }]
  else []

/-- A successful keyword extraction with one keyword not contained in the
optimized query. -/
def kwSoil : KeywordData :=
  { optimized_query := some "Rose care tips", primary_keywords := ["soil"] }

/-- A turn state with an identified plant. -/
def stRose : ChatState :=
  { user_query := "how do I care for it"
    identified_plant := some { plant_name := some "Rose" } }

/-- C2 counterexample: with the primary search returning two results — NOT
fewer than 2 — and keyword extraction successful, the node still issues an
additional single-keyword query: the source's trigger is fewer than 3
primary results (plus successful extraction), not fewer than 2. -/
theorem search_knowledge_trigger_not_two :
    2 ≤ (search_knowledge rankingTwoPrimary (some kwSoil) stRose).primary.length ∧
    (search_knowledge rankingTwoPrimary (some kwSoil) stRose).additional_queries =
      ["Rose soil"] := by
  constructor
  · decide
  · decide

/-- C2 amended: the knowledge node issues at most 2 additional single-keyword
queries, and it issues them exactly when the primary k=5 search returned
fewer than 3 results AND keyword extraction succeeded — one query per top-2
extracted keyword not already contained (case-insensitively) in the
optimized query; the additional results are merged behind the primary ones
and deduplicated by content, and the final result list never exceeds 5
entries (also when no merge happens). -/
theorem search_knowledge_merge_bounds (ranking : String → List Doc)
    (keyword_result : Option KeywordData) (st : ChatState) :
    (search_knowledge ranking keyword_result st).additional_queries.length ≤ 2 ∧
    (search_knowledge ranking keyword_result st).results.length ≤ 5 ∧
    ((3 ≤ (search_knowledge ranking keyword_result st).primary.length ∨
        keyword_result = none) →
      (search_knowledge ranking keyword_result st).additional_queries = [] ∧
      (search_knowledge ranking keyword_result st).results =
        (search_knowledge ranking keyword_result st).primary) ∧
    (∀ kd, keyword_result = some kd →
      (search_knowledge ranking keyword_result st).primary.length < 3 →
      (search_knowledge ranking keyword_result st).additional_queries =
        ((kd.primary_keywords.take 2).filter fun keyword =>
          !strContains
            (pyLower (search_knowledge ranking keyword_result st).optimized_query)
            (pyLower keyword)).map
          (fun keyword =>
            (search_knowledge ranking keyword_result st).plant_name ++ " " ++ keyword) ∧
      ((search_knowledge ranking keyword_result st).results.map
        fun d => d.content).Nodup ∧
      ∀ d ∈ (search_knowledge ranking keyword_result st).results,
        d ∈ (search_knowledge ranking keyword_result st).primary ++
          (search_knowledge ranking keyword_result st).additional_results) := by
  cases keyword_result with
  | none =>
    refine ⟨by simp [search_knowledge], ?_, fun _ => ⟨rfl, rfl⟩, fun kd hkd => by cases hkd⟩
    simp only [search_knowledge, similarity_search]
    exact List.length_take_le ..
  | some kd =>
    by_cases h3 : (similarity_search ranking (knowledgeQuery st kd) 5).length < 3
    · refine ⟨?_, ?_, ?_, ?_⟩
      · simp only [search_knowledge, h3, if_true]
        rw [List.length_map]
        exact le_trans (List.length_filter_le ..) (List.length_take_le ..)
      · simp only [search_knowledge, h3, if_true]
        exact dedupCap_length_le _ _ _ (by simp)
      · intro hcontra
        rcases hcontra with hge | hnone
        · simp only [search_knowledge] at hge
          omega
        · cases hnone
      · intro kd2 hkd2 _
        cases hkd2
        refine ⟨?_, ?_, ?_⟩
        · simp only [search_knowledge, h3, if_true]
        · simp only [search_knowledge, h3, if_true]
          exact dedupCap_nodup _ _ _ (by simp) (by simp)
        · intro d hd
          simp only [search_knowledge, h3, if_true] at hd ⊢
          rcases dedupCap_mem _ _ _ d hd with h | h
          · cases h
          · exact h
    · refine ⟨?_, ?_, fun _ => ⟨?_, ?_⟩, ?_⟩
      · simp [search_knowledge, h3]
      · simp only [search_knowledge, h3, if_false]
        simp only [similarity_search]
        exact List.length_take_le ..
      · simp [search_knowledge, h3]
      · simp [search_knowledge, h3]
      · intro kd2 hkd2 hlt
        cases hkd2
        simp only [search_knowledge] at hlt
        exact absurd hlt h3

/-- C2 witness: with a failed keyword extraction the no-merge branch of the
amended theorem applies and no additional query is issued. -/
theorem search_knowledge_merge_bounds_witness :
    (search_knowledge rankingTwoPrimary none stRose).additional_queries = [] :=
  ((search_knowledge_merge_bounds rankingTwoPrimary none stRose).2.2.1
    (Or.inr rfl)).1

/-! ### Claim C7: the fallback chain -/

/-- A turn input carrying an image and nothing else. -/
def imageInput : TurnInput := { has_image := true }

/-- A classifier payload for the plant_identification intent. -/
def piPayload : Option Json :=
  some (.obj [("intent", .str "plant_identification"), ("confidence", .num 0.9)])

/-- C7: in the plant_identification plan, knowledge_augmenter is declared
fallback_for plant_identifier, and for every capability oracle under which
plant_identifier fails during execution, the plan built for an image-bearing
turn contains that fallback task, its no-plant-identified precondition is
re-checked against the post-failure context (which the failure left without
an identified plant), holds, and the fallback executes within the same
turn. -/
theorem fallback_task_executes (exec : String → AgentResult)
    (h : (exec "plant_identifier").success = false) :
    (∃ t ∈ create_execution_plan .plant_identification
        (initialContext imageInput) [],
      t.agent_name = "knowledge_augmenter" ∧
      t.fallback_for = some "plant_identifier") ∧
    "knowledge_augmenter" ∈
      (runTurn exec piPayload imageInput {}).2.agents_used := by
  constructor
  · decide
  · cases hs : (exec "knowledge_augmenter").success <;>
      simp [runTurn, analyze_intent, piPayload, jsonLookup, UserIntent.ofString,
        pyLower, create_execution_plan, basePlanFor, execution_plans,
        check_conditions, initialContext, imageInput, execute_plan,
        sortByPriority, insertByPriority, groupLabels, runSequential, runGroup,
        execute_agent, agentNames, setInsert, update_context_with_result, h, hs]

/-- An oracle on which only plant identification fails. -/
def failingIdentifier : String → AgentResult := fun name =>
  if name = "plant_identifier" then { success := false, error := some "no match" }
  else { success := true }

/-- C7 witness: with the concrete failing-identifier oracle, the fallback
capability is among the agents executed in the turn. -/
theorem fallback_task_executes_witness :
    "knowledge_augmenter" ∈
      (runTurn failingIdentifier piPayload imageInput {}).2.agents_used :=
  (fallback_task_executes failingIdentifier rfl).2

/-! ### Claim C9: failed-capability exclusion and its scope -/

/-- An oracle on which only the knowledge augmenter fails. -/
def failingAugmenter : String → AgentResult := fun name =>
  if name = "knowledge_augmenter" then
    { success := false, error := some "search down" }
  else { success := true }

/-- A classifier payload for the general_info intent. -/
def giPayload : Option Json :=
  some (.obj [("intent", .str "general_info"), ("confidence", .num 0.9)])

/-- A turn input with no image and no location. -/
def plainInput : TurnInput := {}

/-- The orchestrator's instance context after a first general_info turn in
which the knowledge augmenter failed. -/
def orchAfterFirstTurn : OrchContext :=
  (runTurn failingAugmenter giPayload plainInput {}).1

/-- C9 counterexample: knowledge_augmenter fails during a first general_info
turn; the instance's failed set still contains it afterwards, and the plan
built for the NEXT turn excludes it even though the general_info template
names it with an empty — hence satisfied — condition list: the exclusion
outlives the turn in which the failure happened, refuting "scoped to a
single turn only". -/
theorem failed_exclusion_outlives_turn :
    orchAfterFirstTurn.failed_agents = ["knowledge_augmenter"] ∧
    ((basePlanFor .general_info).tasks.any
      fun t => t.agent_name == "knowledge_augmenter" && t.conditions.isEmpty) = true ∧
    ((create_execution_plan .general_info (initialContext plainInput)
        orchAfterFirstTurn.failed_agents).all
      fun t => t.agent_name != "knowledge_augmenter") = true := by
  refine ⟨by decide, by decide, by decide⟩

/-- A foldl step that preserves a predicate preserves it over the whole
fold. -/
lemma foldl_preserve {α β : Type} (P : β → Prop) (f : β → α → β)
    (hf : ∀ b x, P b → P (f b x)) :
    ∀ (l : List α) (b : β), P b → P (l.foldl f b) := by
  intro l
  induction l with
  | nil => intro b hb; exact hb
  | cons x xs ih => intro b hb; exact ih _ (hf _ _ hb)

/-- Inserting into the failed set keeps old members. -/
lemma setInsert_mem {a : String} {s : List String} (x : String) (h : a ∈ s) :
    a ∈ setInsert s x := by
  unfold setInsert
  split
  · exact h
  · exact List.mem_cons_of_mem _ h

/-- execute_agent never removes a member of the failed set. -/
lemma execute_agent_failed_mono (exec : String → AgentResult) (n : String)
    (orch : OrchContext) {a : String} (h : a ∈ orch.failed_agents) :
    a ∈ (execute_agent exec n orch).2.failed_agents := by
  unfold execute_agent
  split
  · exact h
  · split
    · exact h
    · exact setInsert_mem _ h

/-- The sequential loop never removes a member of the failed set. -/
lemma runSequential_failed_mono (exec : String → AgentResult)
    (tasks : List AgentTask) :
    ∀ (context : PlanContext) (orch : OrchContext)
      (results : List (String × AgentResult)) {a : String},
      a ∈ orch.failed_agents →
      a ∈ (runSequential exec tasks context orch results).2.1.failed_agents := by
  induction tasks with
  | nil => intro context orch results a h; exact h
  | cons t rest ih =>
    intro context orch results a h
    simp only [runSequential]
    split
    · exact ih _ _ _ (execute_agent_failed_mono exec t.agent_name orch h)
    · exact ih _ _ _ h

/-- A parallel group never removes a member of the failed set. -/
lemma runGroup_failed_mono (exec : String → AgentResult)
    (tasks : List AgentTask) (context : PlanContext) (orch : OrchContext)
    {a : String} (h : a ∈ orch.failed_agents) :
    a ∈ (runGroup exec tasks context orch).2.1.failed_agents := by
  unfold runGroup
  exact foldl_preserve
    (fun acc : OrchContext × List (String × AgentResult) =>
      a ∈ acc.1.failed_agents)
    _ (fun b x hb => execute_agent_failed_mono exec x.agent_name b.1 hb) _ _ h

/-- The parallel-group fold never removes a member of the failed set. -/
lemma groups_fold_failed_mono (exec : String → AgentResult)
    (sorted : List AgentTask) :
    ∀ (labels : List String)
      (acc : PlanContext × OrchContext × List (String × AgentResult))
      {a : String}, a ∈ acc.2.1.failed_agents →
      a ∈ (labels.foldl
        (fun acc g =>
          let grp := runGroup exec (sorted.filter fun t => t.parallel_group == some g)
            acc.1 acc.2.1
          (grp.1, grp.2.1, acc.2.2 ++ grp.2.2)) acc).2.1.failed_agents := by
  intro labels
  induction labels with
  | nil => intro acc a h; exact h
  | cons g gs ih =>
    intro acc a h
    exact ih _ (runGroup_failed_mono exec _ _ _ h)

/-- execute_plan never removes a member of the failed set. -/
lemma execute_plan_failed_mono (exec : String → AgentResult)
    (tasks : List AgentTask) (context : PlanContext) (orch : OrchContext)
    {a : String} (h : a ∈ orch.failed_agents) :
    a ∈ (execute_plan exec tasks context orch).2.1.failed_agents := by
  simp only [execute_plan]
  exact groups_fold_failed_mono exec _ _ _
    (runSequential_failed_mono exec _ _ _ _ h)

/-- C9 amended: a capability recorded as failed is excluded from every plan
built while it is in the failed set — no surviving task names it — but the
set itself persists on the orchestrator instance: a turn never removes
entries (it is cleared only by the explicit conversation reset), so the
exclusion extends to every later turn of the same instance rather than
being scoped to a single turn. -/
theorem failed_agents_excluded_and_persist (intent : UserIntent)
    (context : PlanContext) (failed : List String)
    (exec : String → AgentResult) (payload : Option Json) (inp : TurnInput)
    (orch : OrchContext) :
    ((create_execution_plan intent context failed).all
      fun t => !failed.contains t.agent_name) = true ∧
    (∀ a, a ∈ orch.failed_agents →
      a ∈ (runTurn exec payload inp orch).1.failed_agents) := by
  constructor
  · rw [List.all_eq_true]
    intro t ht
    have hcond := List.of_mem_filter ht
    simp only [Bool.and_eq_true] at hcond
    exact hcond.1
  · intro a h
    exact execute_plan_failed_mono exec _ _ orch h

/-- C9 witness: a capability failed before the turn is still in the failed
set after the turn. -/
theorem failed_agents_excluded_and_persist_witness :
    "weather_advisor" ∈
      (runTurn failingAugmenter giPayload plainInput
        { failed_agents := ["weather_advisor"] }).1.failed_agents :=
  (failed_agents_excluded_and_persist .general_info {} [] failingAugmenter
      giPayload plainInput { failed_agents := ["weather_advisor"] }).2
    "weather_advisor" (by decide)

/-! ### Claim C8: synthesize-failure handling -/

/-- Every list is a prefix of itself, at the Boolean level. -/
lemma isPrefixOf_self {α : Type} [DecidableEq α] :
    ∀ l : List α, l.isPrefixOf l = true := by
  intro l
  induction l with
  | nil => rfl
  | cons a rest ih => simp [List.isPrefixOf, ih]

/-- A string contains its own suffix. -/
lemma strContains_append_right (a b : String) :
    strContains (a ++ b) b = true := by
  simp only [strContains, List.any_eq_true]
  refine ⟨a.data.length, List.mem_range.mpr ?_, ?_⟩
  · have : (a ++ b).data = a.data ++ b.data := String.data_append ..
    rw [this, List.length_append]
    omega
  · have : (a ++ b).data = a.data ++ b.data := String.data_append ..
    rw [this, List.drop_left]
    exact isPrefixOf_self ..

/-- C8 counterexample: when the synthesize step raises (the node's exception
path), the final response is the fixed apology, which does not embed the
error message "boom"; so the claim's "final response embeds the error
message" fails on this failure mode. -/
theorem generate_response_exception_apology :
    (generate_response_node {} (.error "boom")).final_response =
      "Sorry, I encountered an error while generating the response." ∧
    strContains
      (generate_response_node {} (.error "boom")).final_response "boom" = false := by
  constructor
  · rfl
  · decide

/-- C8 amended: a synthesize failure is terminal but never escapes the
orchestrator: when the capability reports failure, the final response is the
error string embedding the reported error message; when the step raises, the
final response is the fixed apology and the error message is recorded in the
state's error slot (not embedded in the response) — in both cases the node
returns a state rather than propagating the exception. -/
theorem generate_response_failure_handling (st : ChatState)
    (result : AgentResult) (e : String) (hfail : result.success = false) :
    ((generate_response_node st (.ok result)).final_response =
      "Error generating response: " ++ result.error.getD "Unknown error" ∧
     strContains (generate_response_node st (.ok result)).final_response
       (result.error.getD "Unknown error") = true) ∧
    ((generate_response_node st (.error e)).final_response =
      "Sorry, I encountered an error while generating the response." ∧
     (generate_response_node st (.error e)).error_message =
      "Error generating response: " ++ e) := by
  refine ⟨⟨?_, ?_⟩, rfl, rfl⟩
  · simp [generate_response_node, hfail]
  · have hr : (generate_response_node st (.ok result)).final_response =
        "Error generating response: " ++ result.error.getD "Unknown error" := by
      simp [generate_response_node, hfail]
    rw [hr]
    exact strContains_append_right ..

/-- C8 witness: a concrete failure result produces the error-embedding
response. -/
theorem generate_response_failure_handling_witness :
    (generate_response_node {}
      (.ok { success := false, error := some "LLM gave no response" })).final_response =
      "Error generating response: LLM gave no response" :=
  ((generate_response_failure_handling {}
      { success := false, error := some "LLM gave no response" } "x" rfl).1).1

end PlantCare
